import Mathlib

/-!
Verification development for the kythirware hotel booking system
(`hotel_manager.py`, `booking.py`).

The Python code is shallowly embedded:
* Python's duck-typed values (a field holding sometimes a `str`, sometimes
  an `int`) become the tagged type `PyVal`.
* `datetime.date` values become `Int` day ordinals (days since 1970-01-01,
  proleptic Gregorian); `date` comparison and subtraction in Python agree
  with ordinal comparison and subtraction.
* `datetime.datetime.strptime(s, "%d/%m/%Y").date()` becomes
  `parseDate : String → Option Int` (ASCII digits; CPython's `%d`/`%m`
  accept one or two digits, `%Y` exactly four, the whole string must match,
  and `datetime.date` validates the day against the month length and
  requires year ≥ 1).
* A raised Python exception becomes `Except.error`; a returned status
  string becomes `Except.ok`.
* Methods that may write `self.bookings` or the pickle file are embedded as
  functions on an explicit `Store` state (`bookings` is the in-memory list,
  `persisted` the durable pickle image; `save_bookings` copies the former
  into the latter).
-/

/-- A Python value as stored in the duck-typed fields `Booking.id` and
`Booking.custom_service`: either a string or an integer.  Python `==` on
such values agrees with derived equality (an `int` never equals a `str`). -/
inductive PyVal where
  | str (s : String)
  | int (n : Int)
deriving DecidableEq, Repr

/-- Rendering of a `PyVal` inside a Python f-string. -/
def pyDisplay : PyVal → String
  | .str s => s
  | .int n => toString n

/-- Python `str.lower()` (ASCII range, which covers every string the
program compares after lowering). -/
def strLower (s : String) : String := ⟨s.data.map Char.toLower⟩

/-- Python `str.upper()` (ASCII range, which covers the room names). -/
def strUpper (s : String) : String := ⟨s.data.map Char.toUpper⟩

/-- Python `str.split(sep)` for a one-character separator, on the
character list (`"".split('/') == ['']`, empty pieces kept). -/
def splitOn (sep : Char) : List Char → List (List Char)
  | [] => [[]]
  | c :: rest =>
    let r := splitOn sep rest
    if c = sep then [] :: r
    else
      match r with
      | h :: t => (c :: h) :: t
      | [] => [[c]]

/-- All characters are ASCII decimal digits (Python `str.isdigit` on the
ASCII strings this program handles). -/
def isDigitList (cs : List Char) : Bool := cs.all (fun c => c.isDigit)

/-- Decimal value of a digit list (`int` on a digit string). -/
def digitsVal (cs : List Char) : Nat :=
  cs.foldl (fun n c => 10 * n + (c.toNat - 48)) 0

/-- Strip leading and trailing whitespace, as Python `int(...)` does on a
string argument. -/
def trimWs (cs : List Char) : List Char :=
  ((cs.dropWhile Char.isWhitespace).reverse.dropWhile Char.isWhitespace).reverse

/-- Number of days in a month of the proleptic Gregorian calendar,
as validated by `datetime.date`. -/
def daysInMonth (y m : Nat) : Nat :=
  if m = 2 then (if y % 4 = 0 ∧ (y % 100 ≠ 0 ∨ y % 400 = 0) then 29 else 28)
  else if m = 4 ∨ m = 6 ∨ m = 9 ∨ m = 11 then 30
  else 31

/-- Day ordinal (days since 1970-01-01) of a Gregorian civil date,
Howard Hinnant's `days_from_civil` algorithm, specialised to `y ≥ 1` so all
intermediate quantities are natural numbers. -/
def daysFromCivil (y m d : Nat) : Int :=
  let yAdj := if m ≤ 2 then y - 1 else y
  let era := yAdj / 400
  let yoe := yAdj - era * 400
  let mp := (m + 9) % 12
  let doy := (153 * mp + 2) / 5 + d - 1
  let doe := yoe * 365 + yoe / 4 - yoe / 100 + doy
  (((era * 146097 + doe : Nat) : Int)) - 719468

/-- Inverse of `daysFromCivil` (`civil_from_days`), used only to render a
date back to `DD/MM/YYYY` for `strftime`. -/
def civilFromDays (z : Int) : Int × Int × Int :=
  let z2 := z + 719468
  let era := (if 0 ≤ z2 then z2 else z2 - 146096) / 146097
  let doe := z2 - era * 146097
  let yoe := (doe - doe / 1460 + doe / 36524 - doe / 146096) / 365
  let y := yoe + era * 400
  let doy := doe - (365 * yoe + yoe / 4 - yoe / 100)
  let mp := (5 * doy + 2) / 153
  let d := doy - (153 * mp + 2) / 5 + 1
  let m := if mp < 10 then mp + 3 else mp - 9
  (if m ≤ 2 then y + 1 else y, m, d)

/-- Zero-pad to two digits, as `strftime` does for `%d` and `%m`. -/
def pad2 (n : Nat) : String :=
  if n < 10 then "0" ++ toString n else toString n

/-- Zero-pad to four digits, as `strftime` does for `%Y`. -/
def pad4 (n : Nat) : String :=
  if n < 10 then "000" ++ toString n
  else if n < 100 then "00" ++ toString n
  else if n < 1000 then "0" ++ toString n
  else toString n

/-- `today.strftime("%d/%m/%Y")` on a day ordinal. -/
def strftimeDMY (z : Int) : String :=
  let c := civilFromDays z
  pad2 c.2.2.toNat ++ "/" ++ pad2 c.2.1.toNat ++ "/" ++ pad4 c.1.toNat

/-- `datetime.datetime.strptime(s, "%d/%m/%Y").date()` as a day ordinal.
`none` models the raised `ValueError`.  CPython compiles the format to a
regular expression in which `%d` and `%m` match one or two digits (with the
two-digit forms capped at 31 and 12), `%Y` matches exactly four digits, and
the whole input must be consumed; `datetime.date` then checks
`1 ≤ day ≤ daysInMonth` and `year ≥ 1`.  (Non-ASCII Unicode digits are not
modelled.) -/
def parseDate (s : String) : Option Int :=
  match splitOn '/' s.data with
  | [ds, ms, ys] =>
    if isDigitList ds ∧ 1 ≤ ds.length ∧ ds.length ≤ 2 ∧
       isDigitList ms ∧ 1 ≤ ms.length ∧ ms.length ≤ 2 ∧
       isDigitList ys ∧ ys.length = 4 then
      let d := digitsVal ds
      let m := digitsVal ms
      let y := digitsVal ys
      if 1 ≤ d ∧ 1 ≤ m ∧ m ≤ 12 ∧ 1 ≤ y ∧ d ≤ daysInMonth y m then
        some (daysFromCivil y m d)
      else none
    else none
  | _ => none

/-- One stay record (`booking.Booking`): identity, room, date range (day
ordinals) and service cycle, the last two fields duck-typed as in Python. -/
structure Booking where
  id : PyVal
  room : String
  arrival : Int
  departure : Int
  custom_service : PyVal
deriving DecidableEq, Repr

/-- The manager's state (`HotelManager`): the configured room list, the
in-memory booking list, and the durable pickle image that
`save_bookings` writes. -/
structure Store where
  rooms : List String
  bookings : List Booking
  persisted : List Booking
deriving DecidableEq, Repr

/-- The service-cycle normalization of `add_booking`:
`if custom_service.lower() != 'n': custom_service =
int(custom_service) if custom_service.isdigit() else 1`.
Note that when `lower()` equals `"n"` the original string is kept
unchanged (so `"N"` stays `"N"`). -/
def normalizeService (cs : String) : PyVal :=
  if strLower cs = "n" then .str cs
  else if isDigitList cs.data ∧ cs.data ≠ [] then .int (digitsVal cs.data)
  else .int 1

/-- Python's `int(...)` builtin applied to a duck-typed service value:
identity on ints; on strings, optional surrounding whitespace and an
optional sign followed by decimal digits, `ValueError` otherwise. -/
def pyIntOf : PyVal → Except String Int
  | .int n => .ok n
  | .str s =>
    match trimWs s.data with
    | '-' :: rest =>
      if isDigitList rest ∧ rest ≠ [] then .ok (-(digitsVal rest : Int))
      else .error "ValueError"
    | '+' :: rest =>
      if isDigitList rest ∧ rest ≠ [] then .ok (digitsVal rest : Int)
      else .error "ValueError"
    | t =>
      if isDigitList t ∧ t ≠ [] then .ok (digitsVal t : Int)
      else .error "ValueError"

/-- `HotelManager.add_booking(room, arrival, departure, custom_service)`.
Order of checks as in the code: room membership (after upper-casing),
arrival parse, departure parse (a parse failure is a raised `ValueError`),
range check, occupancy scan, then append-and-save with the fixed
placeholder identity `12345`. -/
def addBooking (s : Store) (roomRaw arrivalS departureS customServiceS : String) :
    Store × Except String String :=
  let room := strUpper roomRaw
  if room ∈ s.rooms then
    match parseDate arrivalS with
    | none => (s, .error "ValueError")
    | some arrival =>
      match parseDate departureS with
      | none => (s, .error "ValueError")
      | some departure =>
        if departure ≤ arrival then
          (s, .ok "Departure date must be after arrival date")
        else if ∃ b ∈ s.bookings,
            b.room = room ∧ ¬(arrival ≥ b.departure ∨ departure ≤ b.arrival) then
          (s, .ok "This room is already occupied during the given period")
        else
          let nb : Booking :=
            ⟨.int 12345, room, arrival, departure, normalizeService customServiceS⟩
          let bs := s.bookings ++ [nb]
          ({ s with bookings := bs, persisted := bs }, .ok "Booking added successfully\n")
  else (s, .ok "Invalid room name")

/-- The per-room exclusivity invariant of the spec: no two stored
reservations for the same room have overlapping `[arrival, departure)`
intervals, overlap of `[a1,d1)` and `[a2,d2)` meaning
`NOT (a1 >= d2 OR d1 <= a2)`. -/
def NoOverlapInv (bs : List Booking) : Prop :=
  List.Pairwise
    (fun x y => x.room = y.room → x.departure ≤ y.arrival ∨ y.departure ≤ x.arrival) bs

/-- The body of the per-booking loop of `HotelManager.print_todays_jobs`:
the formatted job line this booking contributes for `today`, `none` when it
contributes nothing, `Except.error` when the loop body raises
(`int(custom_service)` on a non-numeric string, or `%` by zero). -/
def bookingAction (b : Booking) (today : Int) : Except String (Option String) :=
  if b.arrival ≤ today ∧ today ≤ b.departure then
    let days := today - b.arrival
    if b.custom_service = .str "n" then .ok none
    else if today = b.arrival then .ok (some ("* " ++ b.room ++ ": Γενικό"))
    else if today = b.departure then .ok (some ("* " ++ b.room ++ ": Check-out"))
    else
      match pyIntOf b.custom_service with
      | .error e => .error e
      | .ok n =>
        if 2 * n = 0 then .error "ZeroDivisionError"
        else if Int.fmod days (2 * n) = n then
          .ok (some ("* " ++ b.room ++ ": Πετσέτες"))
        else if Int.fmod days (2 * n) = 0 ∧ days ≠ 0 then
          .ok (some ("* " ++ b.room ++ ": Πετσέτες/Σεντόνια"))
        else .ok none
  else .ok none

/-- The `unique_jobs` accumulation of `print_todays_jobs`: fold the booking
list, keeping each distinct job line once.  (Python uses a `set`; insertion
order stands in for its unspecified iteration order, which no claim
depends on.) -/
def collectJobs : List Booking → Int → List String → Except String (List String)
  | [], _, acc => .ok acc
  | b :: rest, today, acc =>
    match bookingAction b today with
    | .error e => .error e
    | .ok none => collectJobs rest today acc
    | .ok (some j) => collectJobs rest today (if j ∈ acc then acc else acc ++ [j])

/-- `HotelManager._get_padding`: `(30 - len(s) - 1) * ' ' + '*'`
(natural subtraction matches Python, where a negative repeat count yields
the empty string). -/
def getPadding (s : String) : String :=
  String.mk (List.replicate (30 - s.length - 1) ' ') ++ "*"

/-- `HotelManager.print_todays_jobs(today, to_file=False)`: header line,
one padded line per deduplicated job, closing line of 30 stars.  The method
never writes `self.bookings` nor calls `save_bookings`, so the state
component is returned unchanged; an exception in the loop is `.error`. -/
def printTodaysJobs (s : Store) (today : Int) : Store × Except String String :=
  (s,
    match collectJobs s.bookings today [] with
    | .error e => .error e
    | .ok jobs =>
      let header := "**********" ++ strftimeDMY today ++ "**********"
      .ok (String.intercalate "\n"
        ((header :: jobs.map (fun j => j ++ getPadding j)) ++
          ["******************************"])))

/-- The scan of `HotelManager.update_custom_service`: overwrite the
`custom_service` of the first booking whose `id` equals the given one,
`none` when no booking matches. -/
def updateFirst (id v : PyVal) : List Booking → Option (List Booking)
  | [] => none
  | b :: rest =>
    if b.id = id then some ({ b with custom_service := v } :: rest)
    else (updateFirst id v rest).map (b :: ·)

/-- `HotelManager.update_custom_service(id, new_custom_service)`: update
the first match and save, or report not-found leaving everything
untouched. -/
def updateCustomService (s : Store) (id v : PyVal) : Store × String :=
  match updateFirst id v s.bookings with
  | some bs =>
    ({ s with bookings := bs, persisted := bs },
     "Custom service for booking " ++ pyDisplay id ++ " updated successfully")
  | none => (s, "No booking found with ID " ++ pyDisplay id)

/-- One row handed to `load_bookings_from_html` by the HTML table parser
(an external collaborator): the cells the code reads, already as strings —
column A (identity), G (room), C (arrival), D (departure). -/
structure Row where
  A : String
  G : String
  C : String
  D : String
deriving DecidableEq, Repr

/-- `HotelManager.load_rules`: parse every date string of the raw rules
mapping with `strptime("%d/%m/%Y")`; any parse failure is a raised
`ValueError`. -/
def loadRules : List (String × List (String × String)) →
    Except String (List (String × List (Int × Int)))
  | [] => .ok []
  | (k, stays) :: rest =>
    match stays.mapM (fun p =>
        match parseDate p.1, parseDate p.2 with
        | some a, some d => some (a, d)
        | _, _ => none) with
    | none => .error "ValueError"
    | some stays2 =>
      match loadRules rest with
      | .error e => .error e
      | .ok rest2 => .ok ((k, stays2) :: rest2)

/-- The row loop of `load_bookings_from_html`: for each row, one booking
per rule-overlay stay when the identity has rules, otherwise one booking
from the row's own date cells (default service cycle 1).  Returns the
bookings appended before any failure, and the raised error if a row's date
cell fails to parse. -/
def importRows (rules : List (String × List (Int × Int))) :
    List Row → List Booking × Option String
  | [] => ([], none)
  | r :: rest =>
    match List.lookup r.A rules with
    | some stays =>
      let bs := stays.map (fun p => Booking.mk (.str r.A) r.G p.1 p.2 (.int 1))
      let tl := importRows rules rest
      (bs ++ tl.1, tl.2)
    | none =>
      match parseDate r.C, parseDate r.D with
      | some a, some d =>
        let tl := importRows rules rest
        (Booking.mk (.str r.A) r.G a d (.int 1) :: tl.1, tl.2)
      | _, _ => ([], some "ValueError")

/-- `HotelManager.load_custom_services`: for every booking whose (string)
identity is a key of the services mapping, overwrite its service cycle
with the mapped value. -/
def applyServices (svc : List (String × PyVal)) (bs : List Booking) : List Booking :=
  bs.map (fun b =>
    match b.id with
    | .str k =>
      match List.lookup k svc with
      | some v => { b with custom_service := v }
      | none => b
    | .int _ => b)

/-- `HotelManager.load_bookings_from_html`, given the parsed table rows and
the contents of the two overlay files (`none` models an unreadable file,
whose `open` raises).  Mirrors the statement order of the code: clear
`self.bookings`, load `rules.json`, loop over the rows, apply
`services.json`, and only then `save_bookings`; any raised error leaves the
persisted image untouched (the in-memory list keeps whatever had been
appended). -/
def loadBookingsFromHtml (s : Store) (rows : List Row)
    (rulesFile : Option (List (String × List (String × String))))
    (servicesFile : Option (List (String × PyVal))) :
    Store × Except String String :=
  let s0 := { s with bookings := ([] : List Booking) }
  match rulesFile with
  | none => (s0, .error "FileNotFoundError")
  | some raw =>
    match loadRules raw with
    | .error e => (s0, .error e)
    | .ok rules =>
      let imp := importRows rules rows
      match imp.2 with
      | some e => ({ s0 with bookings := imp.1 }, .error e)
      | none =>
        match servicesFile with
        | none => ({ s0 with bookings := imp.1 }, .error "FileNotFoundError")
        | some svc =>
          let bs := applyServices svc imp.1
          ({ s0 with bookings := bs, persisted := bs },
           .ok "Bookings and custom services loaded successfully from HTML and JSON.")

/-- The room list of `run_manager`. -/
def hotelRooms : List String :=
  ["R11", "R12", "R13", "R14", "R15", "R16", "R21", "R22", "R23", "R24",
   "R31", "R32", "R33", "R34"]

/-- A fresh manager as built by `run_manager` with no existing save file. -/
def emptySt : Store := ⟨hotelRooms, [], []⟩

/-- Day ordinal of 01/06/2024. -/
def oJun1 : Int := daysFromCivil 2024 6 1

/-- Day ordinal of 05/06/2024. -/
def oJun5 : Int := daysFromCivil 2024 6 5

/-- Claim C5: the claim says `add` returns a descriptive `InvalidDate`
failure string on an unparsable date and never raises; the code calls
`strptime` outside any `try`, so `add_booking("R11", "2024-06-01",
"05/06/2024", "1")` raises `ValueError` and returns no status string at
all (the state is left unchanged). -/
theorem c5_invalid_date_raises :
    addBooking emptySt "R11" "2024-06-01" "05/06/2024" "1" =
      (emptySt, .error "ValueError") ∧
    ∀ m : String,
      (addBooking emptySt "R11" "2024-06-01" "05/06/2024" "1").2 ≠ .ok m := by
  refine ⟨rfl, ?_⟩
  intro m h
  exact Except.noConfusion h

/-- Claim C6: normalization of `service_cycle_str` in `add_booking`.  The
lowercase literal `"n"` is kept as the sentinel, digit strings become the
integer, and anything else becomes 1 — but the uppercase `"N"`, which the
claim says maps to the "never" sentinel, is stored as the unchanged string
`"N"`, which is not the sentinel `"n"`: the job engine's `== 'n'` test
misses it and `int("N")` then raises `ValueError`. -/
theorem c6_service_normalization :
    normalizeService "n" = PyVal.str "n" ∧
    normalizeService "07" = PyVal.int 7 ∧
    normalizeService "abc" = PyVal.int 1 ∧
    normalizeService "N" = PyVal.str "N" ∧
    PyVal.str "N" ≠ PyVal.str "n" ∧
    bookingAction ⟨PyVal.int 12345, "R11", 0, 9, normalizeService "N"⟩ 1 =
      .error "ValueError" := by
  exact ⟨rfl, rfl, rfl, rfl, by decide, rfl⟩

/-- Claim C9: every manual `add` assigns the fixed placeholder identity
`12345`; after two successful adds (rooms R11 and R12, 01/06/2024 to
03/06/2024) both stored reservations carry the same identity, and
`update_custom_service` addressed at that identity silently updates only
the first reservation, leaving the second untouched — an observable
collision. -/
theorem c9_identity_collision :
    ((addBooking ((addBooking emptySt "R11" "01/06/2024" "03/06/2024" "1").1)
        "R12" "01/06/2024" "03/06/2024" "1").1.bookings.map Booking.id =
      [PyVal.int 12345, PyVal.int 12345]) ∧
    ((updateCustomService
        ((addBooking ((addBooking emptySt "R11" "01/06/2024" "03/06/2024" "1").1)
          "R12" "01/06/2024" "03/06/2024" "1").1)
        (PyVal.int 12345) (PyVal.str "n")).1.bookings =
      [⟨PyVal.int 12345, "R11", daysFromCivil 2024 6 1, daysFromCivil 2024 6 3,
          PyVal.str "n"⟩,
       ⟨PyVal.int 12345, "R12", daysFromCivil 2024 6 1, daysFromCivil 2024 6 3,
          PyVal.int 1⟩]) :=
  ⟨rfl, rfl⟩

/-- Claim C10: computing the daily job report without the file side
channel is read-only on the manager: the returned state — room list,
booking collection and persisted image — is the input state. -/
theorem c10_jobs_report_leaves_store_unchanged (s : Store) (today : Int) :
    (printTodaysJobs s today).1 = s ∧
    (printTodaysJobs s today).1.bookings = s.bookings ∧
    (printTodaysJobs s today).1.persisted = s.persisted :=
  ⟨rfl, rfl, rfl⟩

/-- Claim C2: for a reservation with integer service cycle `N > 0` and a
date strictly between arrival and departure, the job loop emits the
Towels line for the room exactly when `days % (2N) = N`, the
Towels/Linens line exactly when `days % (2N) = 0` and `days ≠ 0`
(`days = today - arrival`), and nothing otherwise; and the concrete stay
R11 from 01/06/2024 to 05/06/2024 with cycle 1 yields General turnover,
Towels, Towels/Linens, Towels, Check-out on its five consecutive days. -/
theorem c2_cycle_actions :
    (∀ (b : Booking) (N today : Int), b.custom_service = PyVal.int N → 0 < N →
        b.arrival < today → today < b.departure →
        bookingAction b today =
          .ok (if (today - b.arrival) % (2 * N) = N then
                 some ("* " ++ b.room ++ ": Πετσέτες")
               else if (today - b.arrival) % (2 * N) = 0 ∧ today - b.arrival ≠ 0 then
                 some ("* " ++ b.room ++ ": Πετσέτες/Σεντόνια")
               else none)) ∧
    ((addBooking emptySt "R11" "01/06/2024" "05/06/2024" "1").1.bookings =
        [⟨PyVal.int 12345, "R11", oJun1, oJun5, PyVal.int 1⟩] ∧
      oJun5 = oJun1 + 4 ∧
      bookingAction ⟨PyVal.int 12345, "R11", oJun1, oJun5, PyVal.int 1⟩ oJun1 =
        .ok (some "* R11: Γενικό") ∧
      bookingAction ⟨PyVal.int 12345, "R11", oJun1, oJun5, PyVal.int 1⟩ (oJun1 + 1) =
        .ok (some "* R11: Πετσέτες") ∧
      bookingAction ⟨PyVal.int 12345, "R11", oJun1, oJun5, PyVal.int 1⟩ (oJun1 + 2) =
        .ok (some "* R11: Πετσέτες/Σεντόνια") ∧
      bookingAction ⟨PyVal.int 12345, "R11", oJun1, oJun5, PyVal.int 1⟩ (oJun1 + 3) =
        .ok (some "* R11: Πετσέτες") ∧
      bookingAction ⟨PyVal.int 12345, "R11", oJun1, oJun5, PyVal.int 1⟩ (oJun1 + 4) =
        .ok (some "* R11: Check-out")) := by
  constructor
  · intro b N today hcs hN harr hdep
    simp only [bookingAction, hcs]
    rw [if_pos ⟨le_of_lt harr, le_of_lt hdep⟩]
    rw [if_neg (by simp : ¬(PyVal.int N = PyVal.str "n"))]
    rw [if_neg (ne_of_gt harr), if_neg (ne_of_lt hdep)]
    simp only [pyIntOf]
    rw [if_neg (by omega : ¬(2 * N = 0))]
    rw [Int.fmod_eq_emod _ (by omega : (0 : Int) ≤ 2 * N)]
    split_ifs <;> rfl
  · exact ⟨rfl, rfl, rfl, rfl, rfl, rfl, rfl⟩

/-- Witness for C2: a stay in R21 arriving on ordinal 100 with cycle 3, on
day 109 (`days = 9`, `9 % 6 = 3 = N`), gets the Towels line. -/
theorem c2_witness :
    bookingAction ⟨PyVal.int 7, "R21", 100, 120, PyVal.int 3⟩ 109 =
      .ok (some "* R21: Πετσέτες") := by
  have h := c2_cycle_actions.1 ⟨PyVal.int 7, "R21", 100, 120, PyVal.int 3⟩ 3 109
    rfl (by norm_num) (by norm_num) (by norm_num)
  simpa using h

/-- Claim C3 counterexample: a reservation whose `service_cycle` is the
"never" sentinel is skipped before the arrival-day branch, so on its exact
arrival date `today_jobs` emits no action at all for it — not
General turnover, contradicting "always yields". -/
theorem c3_counterexample :
    bookingAction ⟨PyVal.int 1, "R11", 0, 4, PyVal.str "n"⟩ 0 = .ok none ∧
    (Except.ok none : Except String (Option String)) ≠
      .ok (some ("* " ++ "R11" ++ ": Γενικό")) := by
  exact ⟨rfl, by simp⟩

/-- Claim C3, amended: on a reservation's exact arrival date the job loop
yields the General-turnover line for its room and nothing else, provided
the reservation's range is well-formed (`arrival ≤ departure`, the data
model's invariant) and its `service_cycle` is not the "never" sentinel. -/
theorem c3_arrival_turnover (b : Booking) (h1 : b.arrival ≤ b.departure)
    (h2 : b.custom_service ≠ PyVal.str "n") :
    bookingAction b b.arrival = .ok (some ("* " ++ b.room ++ ": Γενικό")) := by
  simp only [bookingAction]
  rw [if_pos ⟨le_refl b.arrival, h1⟩, if_neg h2]
  simp

/-- Witness for C3 (amended): a concrete reservation with cycle 2 gets the
General-turnover line on its arrival day. -/
theorem c3_witness :
    bookingAction ⟨PyVal.int 1, "R12", 5, 9, PyVal.int 2⟩ 5 =
      .ok (some "* R12: Γενικό") :=
  c3_arrival_turnover ⟨PyVal.int 1, "R12", 5, 9, PyVal.int 2⟩
    (by norm_num) (by simp)

/-- Claim C4 counterexample: with a reversed date range but a room outside
the configured set, `add` fails with the `InvalidRoom` message, not the
`InvalidRange` one — the room check runs first, so the claim's "regardless
of which room is given" is false. -/
theorem c4_counterexample :
    (addBooking emptySt "ZZZ" "05/06/2024" "01/06/2024" "1").2 =
      .ok "Invalid room name" ∧
    (addBooking emptySt "ZZZ" "05/06/2024" "01/06/2024" "1").2 ≠
      .ok "Departure date must be after arrival date" := by
  refine ⟨rfl, ?_⟩
  intro h
  have h2 : (Except.ok "Invalid room name" : Except String String) =
      .ok "Departure date must be after arrival date" := h
  simp at h2

/-- Claim C4, amended: whenever the (case-normalized) room is in the
configured set and both date strings parse, a departure not strictly after
the arrival always fails with the `InvalidRange` message and leaves the
state unchanged. -/
theorem c4_invalid_range (s : Store) (room a d cs : String) (pa pd : Int)
    (hroom : strUpper room ∈ s.rooms)
    (hpa : parseDate a = some pa) (hpd : parseDate d = some pd)
    (hle : pd ≤ pa) :
    addBooking s room a d cs =
      (s, .ok "Departure date must be after arrival date") := by
  simp only [addBooking, hpa, hpd]
  rw [if_pos hroom, if_pos hle]

/-- Witness for C4 (amended): `add("r11", "05/06/2024", "01/06/2024", "1")`
on a fresh manager returns the `InvalidRange` message. -/
theorem c4_witness :
    addBooking emptySt "r11" "05/06/2024" "01/06/2024" "1" =
      (emptySt, .ok "Departure date must be after arrival date") :=
  c4_invalid_range emptySt "r11" "05/06/2024" "01/06/2024" "1" oJun5 oJun1
    (by decide) rfl rfl (by decide)

/-- Helper for C8: the scan of `update_custom_service` finds nothing when
no booking carries the given identity. -/
theorem updateFirst_eq_none (id v : PyVal) :
    ∀ bs : List Booking, (∀ b ∈ bs, b.id ≠ id) → updateFirst id v bs = none
  | [], _ => rfl
  | b :: rest, h => by
    simp only [updateFirst]
    rw [if_neg (h b (List.mem_cons_self b rest))]
    rw [updateFirst_eq_none id v rest (fun x hx => h x (List.mem_cons_of_mem b hx))]
    rfl

/-- Claim C8: when no stored reservation has the given identity,
`update_custom_service` returns the not-found status and leaves the whole
state — every reservation and the persisted image — unchanged. -/
theorem c8_update_not_found (s : Store) (id v : PyVal)
    (h : ∀ b ∈ s.bookings, b.id ≠ id) :
    updateCustomService s id v = (s, "No booking found with ID " ++ pyDisplay id) := by
  simp only [updateCustomService, updateFirst_eq_none id v s.bookings h]

/-- Witness for C8: `update_service("X", "n")` on a store holding one
reservation with a different identity returns the not-found status and the
unchanged store. -/
theorem c8_witness :
    updateCustomService
        ⟨hotelRooms,
         [⟨PyVal.int 12345, "R11", 19875, 19879, PyVal.int 1⟩],
         [⟨PyVal.int 12345, "R11", 19875, 19879, PyVal.int 1⟩]⟩
        (PyVal.str "X") (PyVal.str "n") =
      (⟨hotelRooms,
        [⟨PyVal.int 12345, "R11", 19875, 19879, PyVal.int 1⟩],
        [⟨PyVal.int 12345, "R11", 19875, 19879, PyVal.int 1⟩]⟩,
       "No booking found with ID X") :=
  c8_update_not_found _ (PyVal.str "X") (PyVal.str "n") (by decide)

/-- Claim C1: `add` preserves per-room exclusivity.  Starting from any
state satisfying the room-exclusivity invariant, the state after `add`
(in particular after any successful `add`) still satisfies it; and
whenever the requested interval overlaps — in the sense
`NOT (a1 >= d2 OR d1 <= a2)` — an existing reservation for that room, the
call returns the `RoomOccupied` message and appends nothing. -/
theorem c1_add_preserves_room_exclusivity (s : Store) (room a d cs : String)
    (hinv : NoOverlapInv s.bookings) :
    NoOverlapInv ((addBooking s room a d cs).1).bookings ∧
    (∀ pa pd : Int, parseDate a = some pa → parseDate d = some pd →
      strUpper room ∈ s.rooms → pa < pd →
      (∃ b ∈ s.bookings, b.room = strUpper room ∧
        ¬(pa ≥ b.departure ∨ pd ≤ b.arrival)) →
      addBooking s room a d cs =
        (s, .ok "This room is already occupied during the given period")) := by
  constructor
  · simp only [addBooking]
    split
    · split
      · exact hinv
      · split
        · exact hinv
        · split
          · exact hinv
          · split
            · exact hinv
            · next hconf =>
              show NoOverlapInv (s.bookings ++ [_])
              unfold NoOverlapInv
              rw [List.pairwise_append]
              refine ⟨hinv, List.pairwise_singleton _ _, ?_⟩
              intro x hx y hy hroomEq
              simp only [List.mem_singleton] at hy
              subst hy
              by_contra hcon
              push_neg at hcon
              dsimp only at hcon
              exact hconf ⟨x, hx, hroomEq, by omega⟩
    · exact hinv
  · intro pa pd hpa hpd hroom hlt hex
    simp only [addBooking, hpa, hpd]
    rw [if_pos hroom, if_neg (not_le.mpr hlt), if_pos hex]

/-- Witness for C1: a successful add on a fresh manager yields an
exclusivity-respecting store, and a second add for R11 overlapping the
stored 01/06–05/06 stay returns the `RoomOccupied` message with the store
unchanged. -/
theorem c1_witness :
    NoOverlapInv ((addBooking emptySt "R11" "01/06/2024" "05/06/2024" "1").1).bookings ∧
    addBooking
        ⟨hotelRooms,
         [⟨PyVal.int 12345, "R11", 19875, 19879, PyVal.int 1⟩],
         [⟨PyVal.int 12345, "R11", 19875, 19879, PyVal.int 1⟩]⟩
        "r11" "02/06/2024" "03/06/2024" "1" =
      (⟨hotelRooms,
        [⟨PyVal.int 12345, "R11", 19875, 19879, PyVal.int 1⟩],
        [⟨PyVal.int 12345, "R11", 19875, 19879, PyVal.int 1⟩]⟩,
       .ok "This room is already occupied during the given period") := by
  constructor
  · exact (c1_add_preserves_room_exclusivity emptySt "R11" "01/06/2024" "05/06/2024" "1"
      List.Pairwise.nil).1
  · exact (c1_add_preserves_room_exclusivity
        ⟨hotelRooms,
         [⟨PyVal.int 12345, "R11", 19875, 19879, PyVal.int 1⟩],
         [⟨PyVal.int 12345, "R11", 19875, 19879, PyVal.int 1⟩]⟩
        "r11" "02/06/2024" "03/06/2024" "1"
        (List.Pairwise.cons (by simp) List.Pairwise.nil)).2
      (daysFromCivil 2024 6 2) (daysFromCivil 2024 6 3) rfl rfl (by decide) (by decide)
      ⟨⟨PyVal.int 12345, "R11", 19875, 19879, PyVal.int 1⟩,
       List.mem_singleton_self _, by decide, by decide⟩

/-- Claim C7: bulk import is all-or-nothing on the persisted image.  When
`load_bookings_from_html` returns its success status, the rules file was
read and fully parsed, every row was processed, the collection was
replaced by the service-overlaid import of the whole row set and that
exact collection was persisted; when any step raises, the persisted image
is the one from before the call. -/
theorem c7_bulk_import_all_or_nothing (s : Store) (rows : List Row)
    (rulesFile : Option (List (String × List (String × String))))
    (servicesFile : Option (List (String × PyVal))) :
    (∀ m, (loadBookingsFromHtml s rows rulesFile servicesFile).2 = .ok m →
      ∃ raw rules svc,
        rulesFile = some raw ∧ loadRules raw = .ok rules ∧
        servicesFile = some svc ∧ (importRows rules rows).2 = none ∧
        (loadBookingsFromHtml s rows rulesFile servicesFile).1.bookings =
          applyServices svc (importRows rules rows).1 ∧
        (loadBookingsFromHtml s rows rulesFile servicesFile).1.persisted =
          (loadBookingsFromHtml s rows rulesFile servicesFile).1.bookings) ∧
    (∀ e, (loadBookingsFromHtml s rows rulesFile servicesFile).2 = .error e →
      (loadBookingsFromHtml s rows rulesFile servicesFile).1.persisted = s.persisted) := by
  cases rulesFile with
  | none =>
    constructor
    · intro m hm
      exact absurd hm (by simp [loadBookingsFromHtml])
    · intro e he
      rfl
  | some raw =>
    cases hr : loadRules raw with
    | error err =>
      constructor
      · intro m hm
        simp only [loadBookingsFromHtml, hr] at hm
        exact Except.noConfusion hm
      · intro e he
        simp only [loadBookingsFromHtml, hr]
    | ok rules =>
      cases himp : (importRows rules rows).2 with
      | some err =>
        constructor
        · intro m hm
          simp only [loadBookingsFromHtml, hr, himp] at hm
          exact Except.noConfusion hm
        · intro e he
          simp only [loadBookingsFromHtml, hr, himp]
      | none =>
        cases servicesFile with
        | none =>
          constructor
          · intro m hm
            simp only [loadBookingsFromHtml, hr, himp] at hm
            exact Except.noConfusion hm
          · intro e he
            simp only [loadBookingsFromHtml, hr, himp]
        | some svc =>
          constructor
          · intro m hm
            refine ⟨raw, rules, svc, rfl, hr, rfl, himp, ?_, ?_⟩ <;>
              simp only [loadBookingsFromHtml, hr, himp]
          · intro e he
            simp only [loadBookingsFromHtml, hr, himp] at he
            exact Except.noConfusion he

/-- Witness for C7: importing one well-formed row with empty overlay files
succeeds and the persisted image equals the new in-memory collection. -/
theorem c7_witness :
    (loadBookingsFromHtml emptySt [⟨"7", "R11", "01/06/2024", "03/06/2024"⟩]
        (some []) (some [])).1.persisted =
      (loadBookingsFromHtml emptySt [⟨"7", "R11", "01/06/2024", "03/06/2024"⟩]
        (some []) (some [])).1.bookings := by
  obtain ⟨raw, rules, svc, h1, h2, h3, h4, h5, h6⟩ :=
    (c7_bulk_import_all_or_nothing emptySt
        [⟨"7", "R11", "01/06/2024", "03/06/2024"⟩] (some []) (some [])).1
      "Bookings and custom services loaded successfully from HTML and JSON." rfl
  exact h6
